import Mathlib

/-!
Verification development for the task scheduling and execution engine of the
`server-manager` repository (`app/scheduler.py`, `app/database.py`,
`app/models.py`).

The Python code is shallowly embedded: pure string manipulation is translated
directly, the stateful scheduler/executor/database trio becomes explicit state
passing over a `SysState` record, wall-clock reads (`datetime.now()`) become
explicit `Nat` parameters, and the behaviour of the external process and of the
`psutil`/`apscheduler` libraries is abstracted into explicit outcome parameters
(`SpawnResult`, `CancelOutcome`, and the `cronOk`/`nextRun` oracles) so that
every control path of the Python source is represented.

Integer ids and timestamps are modelled as `Nat`; process exit codes as `Int`.
Records that the scheduler touches always carry a persisted integer id, so the
`Optional[int]` id of freshly constructed pydantic objects is modelled as a
plain `Nat` assigned at creation time.
-/

namespace ServerManager

/-! ## Python string helpers

`app/scheduler.py` line 341 computes `task.cron_expression.strip().split()`.
Python `str.split()` with no separator splits on runs of whitespace and drops
empty fields; `str.strip()` removes leading and trailing whitespace.  Both are
modelled on `List Char`.
-/

/-- Character-level whitespace test used by Python `str.strip`/`str.split`. -/
def isWS (c : Char) : Bool := c.isWhitespace

/-- Python `str.split()` (no separator): split on whitespace, dropping empty
fields. -/
def pySplit (cs : List Char) : List (List Char) :=
  (cs.splitOnP isWS).filter (fun w => !w.isEmpty)

/-- Removal of trailing whitespace (the right half of Python `str.strip`). -/
def trimRight (cs : List Char) : List Char :=
  ((cs.reverse).dropWhile isWS).reverse

/-- Python `str.strip()`: remove trailing whitespace, then leading whitespace
(the two removals act on disjoint ends, so the order is immaterial). -/
def pyStrip (cs : List Char) : List Char :=
  (trimRight cs).dropWhile isWS

/-- The whitespace-separated fields of a cron expression string, exactly as
computed by `task.cron_expression.strip().split()` in `schedule_task`. -/
def cronFields (s : String) : List (List Char) :=
  pySplit (pyStrip s.data)

/-- Python truthiness of an optional string (`if task.cron_expression:`):
present and non-empty. -/
def optStrTruthy : Option String → Bool
  | some s => !s.data.isEmpty
  | none => false

/-- Python truthiness-and-positivity test
`task.interval_seconds and task.interval_seconds > 0`. -/
def optIntPositive : Option Int → Bool
  | some n => decide (0 < n)
  | none => false

/-! ## Data model (`app/models.py`) -/

/-- Execution status enumeration (`TaskStatus` in `app/models.py`). -/
inductive TaskStatus where
  | pending
  | running
  | completed
  | failed
  | cancelled
  deriving DecidableEq, Repr

/-- A persisted task definition (`ScheduledTask` in `app/models.py`), with the
fields the scheduling engine reads.  Stored tasks always carry an id. -/
structure ScheduledTask where
  id : Nat
  name : String
  command : String
  enabled : Bool
  cron_expression : Option String
  interval_seconds : Option Int
  timeout_seconds : Nat
  max_retries : Nat
  created_at : Nat
  updated_at : Nat
  last_run_at : Option Nat
  next_run_at : Option Nat
  deriving DecidableEq, Repr

/-- A persisted execution record (`TaskExecution` in `app/models.py`). -/
structure TaskExecution where
  id : Nat
  task_id : Nat
  task_name : String
  status : TaskStatus
  started_at : Option Nat
  completed_at : Option Nat
  duration_seconds : Option Nat
  exit_code : Option Int
  stdout : Option String
  stderr : Option String
  error_message : Option String
  pid : Option Nat
  command : String
  created_at : Nat
  deriving DecidableEq, Repr

/-! ## Database state (`app/database.py`)

TinyDB tables become lists kept in insertion order; the `executions` id
counter becomes `nextExecutionId`.  `update` maps a field transformer over all
records matching the queried id; `search`/`get` return the first match.
-/

/-- State of the persistence collaborator (`DatabaseManager`): the `tasks` and
`executions` tables plus the id counter for executions. -/
structure DbState where
  tasks : List ScheduledTask
  executions : List TaskExecution
  nextExecutionId : Nat
  deriving DecidableEq, Repr

/-- DatabaseManager.get_task: first task whose `id` matches. -/
def get_task (db : DbState) (task_id : Nat) : Option ScheduledTask :=
  db.tasks.find? (fun t => t.id = task_id)

/-- DatabaseManager.get_execution: first execution record whose `id` matches. -/
def get_execution (db : DbState) (execution_id : Nat) : Option TaskExecution :=
  db.executions.find? (fun e => e.id = execution_id)

/-- DatabaseManager.get_enabled_tasks: all tasks with `enabled == True`. -/
def get_enabled_tasks (db : DbState) : List ScheduledTask :=
  db.tasks.filter (fun t => t.enabled)

/-- DatabaseManager.update_execution: apply a field update to every execution
record whose `id` matches (the call sites each write a fixed set of fields,
embedded as the transformer `f`). -/
def update_execution (db : DbState) (execution_id : Nat)
    (f : TaskExecution → TaskExecution) : DbState :=
  { db with executions :=
      db.executions.map (fun e => if e.id = execution_id then f e else e) }

/-- DatabaseManager.update_task: apply a field update to every task whose `id`
matches; the method always also stamps `updated_at` with the current time. -/
def update_task (db : DbState) (now : Nat) (task_id : Nat)
    (f : ScheduledTask → ScheduledTask) : DbState :=
  { db with tasks :=
      db.tasks.map (fun t =>
        if t.id = task_id then { f t with updated_at := now } else t) }

/-- DatabaseManager.create_execution: draw a fresh id from the counter, stamp
it on the record and append it to the `executions` table. -/
def create_execution (db : DbState) (mk : Nat → TaskExecution) :
    TaskExecution × DbState :=
  let newId := db.nextExecutionId + 1
  let e := mk newId
  (e, { db with nextExecutionId := newId, executions := db.executions ++ [e] })

/-- DatabaseManager.delete_task (`app/database.py` lines 192-198): first remove
every execution record whose `task_id` matches, then remove the task itself;
the returned flag reports whether a task row was removed. -/
def delete_task (db : DbState) (task_id : Nat) : Bool × DbState :=
  let executions := db.executions.filter (fun e => !(e.task_id = task_id : Bool))
  let removed := db.tasks.any (fun t => t.id = task_id)
  let tasks := db.tasks.filter (fun t => !(t.id = task_id : Bool))
  (removed, { db with executions := executions, tasks := tasks })

/-! ## Combined runtime state

`TaskScheduler` owns a `TaskExecutor` and an apscheduler instance.  The job
registry (`MemoryJobStore`) becomes a list of `(task id, trigger)` pairs, the
executor's `running_processes` dict becomes the list of registered execution
ids, and both share the database state.
-/

/-- Trigger resolved by `schedule_task`: either a six-field `CronTrigger`
(fields kept as the verbatim strings passed to the library constructor) or an
`IntervalTrigger`. -/
inductive Trigger where
  | cron (second minute hour day month day_of_week : List Char)
  | interval (seconds : Int)
  deriving DecidableEq, Repr

/-- Combined state of the coordinator, the job registry, the executor's
running-process table and the database. -/
structure SysState where
  is_running : Bool
  jobs : List (Nat × Trigger)
  procs : List Nat
  db : DbState
  deriving DecidableEq, Repr

/-- Dict-style insertion into the running-process table
(`self.running_processes[execution.id] = process`). -/
def insertProc (procs : List Nat) (execution_id : Nat) : List Nat :=
  if execution_id ∈ procs then procs else procs ++ [execution_id]

/-- Dict-style deletion from the running-process table
(`del self.running_processes[execution_id]`). -/
def removeProc (procs : List Nat) (execution_id : Nat) : List Nat :=
  procs.filter (fun i => !(i = execution_id : Bool))

/-! ## Task executor (`TaskExecutor` in `app/scheduler.py`)

`execute_shell_task` suspends exactly once while the child process runs (the
`await asyncio.wait_for(process.communicate(), ...)` on line 78), so it is
embedded as two sequential phases: `shellStart` covers lines 39-74 (mark
running, persist, spawn, register the process) and `shellFinish` covers lines
76-135 (wait outcome, table cleanup, completion stamps, final persist).  Other
coroutine operations (`cancel_task_execution` in particular) can run between
the two phases, which is precisely the interleaving that matters below.

What the external process does is an input: `WaitOutcome` says whether the
process exited within the timeout (and with what exit code/output) or timed
out (and whether it died within the 5-second grace wait after `terminate()`),
and `SpawnResult` additionally covers an exception raised while spawning.
-/

/-- Result of waiting for the spawned process. -/
inductive WaitOutcome where
  | exits (rc : Int) (stdout stderr : String)
  | timesOut (exitsWithinGrace : Bool)
  deriving DecidableEq, Repr

/-- Result of `asyncio.create_subprocess_shell`: either a live process (with
its pid and eventual wait outcome) or an exception whose text is `msg`. -/
inductive SpawnResult where
  | ok (pid : Nat) (wait : WaitOutcome)
  | err (msg : String)
  deriving DecidableEq, Repr

/-- Process-tree signals sent on the timeout path. -/
inductive ProcAction where
  | terminate
  | kill
  deriving DecidableEq, Repr

/-- Error message set on a nonzero exit code (line 92 of `app/scheduler.py`). -/
def exitCodeMsg (rc : Int) : String := "进程退出码: " ++ toString rc

/-- Error message set on timeout (line 104 of `app/scheduler.py`). -/
def timeoutMsg (timeout_seconds : Nat) : String :=
  "任务执行超时 (" ++ toString timeout_seconds ++ "秒)"

/-- Error message set by user cancellation (line 234 of `app/scheduler.py`). -/
def cancelMsg : String := "任务被用户取消"

/-- Phase one of `execute_shell_task` (lines 39-74): set the record running
with a start timestamp, persist those two fields, spawn the process, stamp the
pid on the in-memory record and register the process in the running table. -/
def shellStart (tStart : Nat) (pid : Nat) (e : TaskExecution) (st : SysState) :
    TaskExecution × SysState :=
  let e1 := { e with status := TaskStatus.running, started_at := some tStart }
  let db1 := update_execution st.db e.id (fun r =>
    { r with status := TaskStatus.running, started_at := some tStart })
  let e2 := { e1 with pid := some pid }
  (e2, { st with db := db1, procs := insertProc st.procs e.id })

/-- Phase two of `execute_shell_task` (lines 76-135): fold in the wait
outcome, remove the running-table entry (the inner `finally`), stamp
completion time and duration, and persist the full terminal record. -/
def shellFinish (w : WaitOutcome) (tEnd : Nat) (task : ScheduledTask)
    (e : TaskExecution) (st : SysState) :
    TaskExecution × SysState × List ProcAction :=
  let outcome : TaskExecution × List ProcAction :=
    match w with
    | WaitOutcome.exits rc out err =>
        ({ e with
            exit_code := some rc
            stdout := some out
            stderr := some err
            status := if rc = 0 then TaskStatus.completed else TaskStatus.failed
            error_message :=
              if rc = 0 then e.error_message else some (exitCodeMsg rc) },
         [])
    | WaitOutcome.timesOut graceful =>
        ({ e with
            status := TaskStatus.failed
            error_message := some (timeoutMsg task.timeout_seconds)
            exit_code := some (-1) },
         if graceful then [ProcAction.terminate]
         else [ProcAction.terminate, ProcAction.kill])
  let e3 := outcome.1
  let procs2 := removeProc st.procs e.id
  let e4 := { e3 with
    completed_at := some tEnd
    duration_seconds := e3.started_at.map (fun s => tEnd - s) }
  let db2 := update_execution st.db e.id (fun r =>
    { r with
        status := e4.status
        completed_at := e4.completed_at
        duration_seconds := e4.duration_seconds
        exit_code := e4.exit_code
        stdout := e4.stdout
        stderr := e4.stderr
        error_message := e4.error_message
        pid := e4.pid })
  (e4, { st with db := db2, procs := procs2 }, outcome.2)

/-- TaskExecutor.execute_shell_task, whole body.  On a spawn exception the
outer `except` (lines 115-121) marks the record failed with the exception text
and the final persist (lines 124-133) still runs; the running table was never
touched on that path. -/
def execute_shell_task (res : SpawnResult) (tStart tEnd : Nat)
    (task : ScheduledTask) (e : TaskExecution) (st : SysState) :
    TaskExecution × SysState × List ProcAction :=
  match res with
  | SpawnResult.ok pid w =>
      let started := shellStart tStart pid e st
      shellFinish w tEnd task started.1 started.2
  | SpawnResult.err msg =>
      let e1 := { e with status := TaskStatus.running, started_at := some tStart }
      let db1 := update_execution st.db e.id (fun r =>
        { r with status := TaskStatus.running, started_at := some tStart })
      let e2 := { e1 with
        status := TaskStatus.failed
        error_message := some msg
        completed_at := some tEnd
        duration_seconds := e1.started_at.map (fun s => tEnd - s) }
      let db2 := update_execution db1 e.id (fun r =>
        { r with
            status := e2.status
            completed_at := e2.completed_at
            duration_seconds := e2.duration_seconds
            exit_code := e2.exit_code
            stdout := e2.stdout
            stderr := e2.stderr
            error_message := e2.error_message
            pid := e2.pid })
      (e2, { st with db := db2 }, [])

/-- TaskExecutor.execute_task (lines 138-183): create a pending execution
record, run it as a shell task, then stamp the owning task's `last_run_at`
with the completion time (`execution.completed_at or datetime.now()`). -/
def execute_task (res : SpawnResult) (tCreate tStart tEnd tAfter : Nat)
    (task : ScheduledTask) (st : SysState) : TaskExecution × SysState :=
  let created := create_execution st.db (fun newId =>
    { id := newId
      task_id := task.id
      task_name := task.name
      status := TaskStatus.pending
      started_at := none
      completed_at := none
      duration_seconds := none
      exit_code := none
      stdout := none
      stderr := none
      error_message := none
      pid := none
      command := task.command
      created_at := tCreate })
  let ran := execute_shell_task res tStart tEnd task created.1
    { st with db := created.2 }
  let e := ran.1
  let st1 := ran.2.1
  let db2 := update_task st1.db tAfter task.id (fun t =>
    { t with last_run_at := some (e.completed_at.getD tAfter) })
  (e, { st1 with db := db2 })

/-- How far the `psutil` process-tree teardown inside
`cancel_task_execution`'s `try` block gets.  `ok`, `noSuchProcess`
(handled by `except psutil.NoSuchProcess: pass`) and `timeoutThenKill`
(handled by `except psutil.TimeoutExpired`, force-killing survivors) all fall
through to the status update and table cleanup; `unexpectedError` is any other
exception, caught only by the outer `except Exception` which logs and returns
`False` without reaching the cleanup code. -/
inductive CancelOutcome where
  | ok
  | noSuchProcess
  | timeoutThenKill
  | unexpectedError (msg : String)
  deriving DecidableEq, Repr

/-- True for the outcomes that complete the `try` block of
`cancel_task_execution`. -/
def CancelOutcome.handled : CancelOutcome → Bool
  | CancelOutcome.unexpectedError _ => false
  | _ => true

/-- TaskExecutor.cancel_task_execution (lines 185-246): bail out with `False`
when the id has no running-table entry; otherwise tear down the process tree,
mark the record cancelled with the user-cancellation message and a completion
time, delete the table entry and return `True` — unless an unexpected
exception fires inside the `try`, in which case the outer handler returns
`False` with neither the record updated nor the entry deleted. -/
def cancel_task_execution (c : CancelOutcome) (now : Nat) (st : SysState)
    (execution_id : Nat) : Bool × SysState :=
  if execution_id ∈ st.procs then
    if c.handled then
      let db1 := update_execution st.db execution_id (fun r =>
        { r with
            status := TaskStatus.cancelled
            error_message := some cancelMsg
            completed_at := some now })
      (true, { st with db := db1, procs := removeProc st.procs execution_id })
    else
      (false, st)
  else
    (false, st)

/-! ## Scheduler coordinator (`TaskScheduler` in `app/scheduler.py`)

The apscheduler library is abstracted by two oracles: `cronOk t` says whether
the `CronTrigger(...)` constructor accepts the six field strings of `t`
(an unparsable field raises, landing in the `except` on line 360), and
`nextRun t` is the `job.next_run_time` the library computes for a freshly
added job with trigger `t` (`None` when the trigger has no future fire time).
-/

/-- Outcome of the trigger-resolution section of `schedule_task`
(lines 334-366). -/
inductive TriggerResolution where
  | scheduled (t : Trigger)
  | noTrigger
  | bailOut
  deriving DecidableEq, Repr

/-- Trigger resolution of `schedule_task`: with a truthy cron expression,
split into fields, prefix an implicit `"0"` seconds field when there are
exactly five, build a `CronTrigger` when there are six (bailing out of the
whole function if the constructor raises) and bail out on any other count;
with no cron expression, a positive interval gives an `IntervalTrigger` and
anything else leaves no trigger (falling through to the clear-next-run
branch). -/
def resolveTrigger (cronOk : Trigger → Bool) (task : ScheduledTask) :
    TriggerResolution :=
  if optStrTruthy task.cron_expression then
    let parts := cronFields (task.cron_expression.getD "")
    let parts := if parts.length = 5 then ['0'] :: parts else parts
    if parts.length = 6 then
      let trig := Trigger.cron (parts.getD 0 []) (parts.getD 1 [])
        (parts.getD 2 []) (parts.getD 3 []) (parts.getD 4 []) (parts.getD 5 [])
      if cronOk trig then TriggerResolution.scheduled trig
      else TriggerResolution.bailOut
    else TriggerResolution.bailOut
  else if optIntPositive task.interval_seconds then
    TriggerResolution.scheduled (Trigger.interval (task.interval_seconds.getD 0))
  else
    TriggerResolution.noTrigger

/-- Continuation of `schedule_task` after trigger resolution (the job-registry
and next-run bookkeeping of lines 368-392), starting from the state in which
any pre-existing job for the task was already removed (lines 331-332). -/
def applyResolution (nextRun : Trigger → Option Nat) (now : Nat)
    (st : SysState) (task_id : Nat) (r : TriggerResolution) : SysState :=
  let jobs1 := st.jobs.filter (fun j => !(j.1 = task_id : Bool))
  match r with
  | TriggerResolution.bailOut => { st with jobs := jobs1 }
  | TriggerResolution.scheduled trig =>
      let jobs2 := jobs1 ++ [(task_id, trig)]
      let db1 :=
        match nextRun trig with
        | some t => update_task st.db now task_id (fun tk =>
            { tk with next_run_at := some t })
        | none => st.db
      { st with jobs := jobs2, db := db1 }
  | TriggerResolution.noTrigger =>
      { st with
          jobs := jobs1
          db := update_task st.db now task_id (fun tk =>
            { tk with next_run_at := none }) }

/-- TaskScheduler.schedule_task (lines 317-395): a no-op unless the
coordinator is running; otherwise remove any existing job handle, resolve the
trigger and apply the resolution.  Every failure path is absorbed inside the
function (`return` after logging), so nothing propagates to the caller. -/
def schedule_task (cronOk : Trigger → Bool) (nextRun : Trigger → Option Nat)
    (now : Nat) (st : SysState) (task : ScheduledTask) : SysState :=
  if st.is_running then
    applyResolution nextRun now st task.id (resolveTrigger cronOk task)
  else st

/-- TaskScheduler.unschedule_task (lines 397-415): remove the job handle if
present and clear the task's `next_run_at` (no running-flag check). -/
def unschedule_task (now : Nat) (st : SysState) (task_id : Nat) : SysState :=
  { st with
      jobs := st.jobs.filter (fun j => !(j.1 = task_id : Bool))
      db := update_task st.db now task_id (fun tk =>
        { tk with next_run_at := none }) }

/-- TaskScheduler.reload_tasks (lines 299-315): a no-op unless running;
otherwise drop every job and re-schedule each enabled task. -/
def reload_tasks (cronOk : Trigger → Bool) (nextRun : Trigger → Option Nat)
    (now : Nat) (st : SysState) : SysState :=
  if st.is_running then
    (get_enabled_tasks st.db).foldl (schedule_task cronOk nextRun now)
      { st with jobs := [] }
  else st

/-- TaskScheduler.start (lines 278-288): a no-op when already running;
otherwise mark running and reload all enabled tasks. -/
def start (cronOk : Trigger → Bool) (nextRun : Trigger → Option Nat)
    (now : Nat) (st : SysState) : SysState :=
  if st.is_running then st
  else reload_tasks cronOk nextRun now { st with is_running := true }

/-- TaskScheduler.stop (lines 290-297): a no-op when not running; otherwise
shut the apscheduler instance down and clear the running flag.  The library
shutdown only cancels timers; the registry contents are not consulted again,
so the model keeps `jobs` as is. -/
def stop (st : SysState) : SysState :=
  if st.is_running then { st with is_running := false } else st

/-- TaskScheduler.execute_task_now (lines 444-459): fetch the task fresh from
the database and run it through the executor — with no check of either the
running flag or the task's `enabled` flag. -/
def execute_task_now (res : SpawnResult) (tCreate tStart tEnd tAfter : Nat)
    (st : SysState) (task_id : Nat) : Option TaskExecution × SysState :=
  match get_task st.db task_id with
  | none => (none, st)
  | some task =>
      let ran := execute_task res tCreate tStart tEnd tAfter task st
      (some ran.1, ran.2)

/-! ## Lemmas about Python-style splitting

These support the five-field/six-field cron equivalence: splitting ignores
leading and trailing whitespace, and prefixing `"0 "` prepends exactly the
field `"0"`.
-/

/-- Splitting the empty list yields no fields. -/
theorem pySplit_nil : pySplit [] = [] := rfl

/-- An all-whitespace list splits into empty fields only. -/
theorem splitOnP_allWS (w : List Char) (h : ∀ c ∈ w, isWS c = true) :
    w.splitOnP isWS = List.replicate (w.length + 1) [] := by
  induction w with
  | nil => rfl
  | cons c t ih =>
    have hc : isWS c = true := h c (List.mem_cons_self c t)
    rw [List.splitOnP_cons, if_pos hc,
      ih (fun x hx => h x (List.mem_cons_of_mem c hx))]
    rfl

/-- Empty fields are all an all-whitespace list produces, and they are
filtered away. -/
theorem pySplit_allWS (w : List Char) (h : ∀ c ∈ w, isWS c = true) :
    pySplit w = [] := by
  unfold pySplit
  rw [splitOnP_allWS w h]
  induction w.length + 1 with
  | zero => rfl
  | succ n ih => simp [List.replicate_succ, List.filter_cons, ih]

/-- Leading whitespace does not change the split fields. -/
theorem pySplit_dropWhile (l : List Char) :
    pySplit (l.dropWhile isWS) = pySplit l := by
  induction l with
  | nil => rfl
  | cons c t ih =>
    by_cases hc : isWS c = true
    · rw [List.dropWhile_cons, if_pos hc, ih]
      unfold pySplit
      rw [List.splitOnP_cons, if_pos hc, List.filter_cons]
      simp
    · rw [List.dropWhile_cons, if_neg hc]

/-- Head modification commutes with appending past a nonempty prefix. -/
theorem modifyHead_append_of_ne_nil (f : List Char → List Char)
    (a b : List (List Char)) (h : a ≠ []) :
    (a ++ b).modifyHead f = a.modifyHead f ++ b := by
  cases a with
  | nil => exact absurd rfl h
  | cons x xs => rfl

/-- Appending trailing whitespace only appends empty fields to the raw
split. -/
theorem splitOnP_append_allWS (l w : List Char) (h : ∀ c ∈ w, isWS c = true) :
    (l ++ w).splitOnP isWS = l.splitOnP isWS ++ List.replicate w.length [] := by
  induction l with
  | nil =>
    rw [List.nil_append, splitOnP_allWS w h, List.splitOnP_nil]
    rfl
  | cons c t ih =>
    by_cases hc : isWS c = true
    · rw [List.cons_append, List.splitOnP_cons, if_pos hc, ih,
        List.splitOnP_cons, if_pos hc, List.cons_append]
    · rw [List.cons_append, List.splitOnP_cons, if_neg hc, ih,
        List.splitOnP_cons, if_neg hc,
        modifyHead_append_of_ne_nil _ _ _ (List.splitOnP_ne_nil _ t)]

/-- Replicated empty fields are filtered away. -/
theorem filter_replicate_nil (n : Nat) :
    (List.replicate n ([] : List Char)).filter (fun w => !w.isEmpty) = [] := by
  induction n with
  | zero => rfl
  | succ m ih => simp [List.replicate_succ, List.filter_cons, ih]

/-- Trailing whitespace does not change the split fields. -/
theorem pySplit_append_allWS (l w : List Char) (h : ∀ c ∈ w, isWS c = true) :
    pySplit (l ++ w) = pySplit l := by
  unfold pySplit
  rw [splitOnP_append_allWS l w h, List.filter_append, filter_replicate_nil,
    List.append_nil]

/-- Right-trimming does not change the split fields. -/
theorem pySplit_trimRight (l : List Char) :
    pySplit (trimRight l) = pySplit l := by
  have hdecomp : l = trimRight l ++ (l.reverse.takeWhile isWS).reverse := by
    unfold trimRight
    rw [← List.reverse_append, List.takeWhile_append_dropWhile,
      List.reverse_reverse]
  have hws : ∀ c ∈ (l.reverse.takeWhile isWS).reverse, isWS c = true := by
    intro c hcmem
    exact List.mem_takeWhile_imp (List.mem_reverse.mp hcmem)
  conv_rhs => rw [hdecomp]
  exact (pySplit_append_allWS _ _ hws).symm

/-- Python `strip` does not change the fields `split` produces. -/
theorem pySplit_pyStrip (l : List Char) : pySplit (pyStrip l) = pySplit l := by
  unfold pyStrip
  rw [pySplit_dropWhile, pySplit_trimRight]

/-- Prefixing `'0'` and a space prepends exactly the field `"0"`. -/
theorem pySplit_zero_space (l : List Char) :
    pySplit ('0' :: ' ' :: l) = ['0'] :: pySplit l := by
  have h0 : isWS '0' = false := by decide
  have hs : isWS ' ' = true := by decide
  unfold pySplit
  rw [List.splitOnP_cons, List.splitOnP_cons, if_pos hs, if_neg (by simp [h0])]
  rw [List.modifyHead_cons, List.filter_cons]
  simp

/-- The fields of `"0 " ++ s` are `"0"` followed by the fields of `s`. -/
theorem cronFields_prefix_zero (s : String) :
    cronFields ("0 " ++ s) = ['0'] :: cronFields s := by
  unfold cronFields
  rw [pySplit_pyStrip, pySplit_pyStrip, String.data_append,
    show ("0 ").data = ['0', ' '] from rfl, List.cons_append, List.cons_append,
    List.nil_append]
  exact pySplit_zero_space s.data

/-- A string with five fields is nonempty. -/
theorem data_ne_nil_of_cronFields_length_five (s : String)
    (h5 : (cronFields s).length = 5) : s.data ≠ [] := by
  intro hnil
  rw [cronFields, hnil] at h5
  simp [pyStrip, trimRight, pySplit] at h5

/-! ## Basic facts about the embedding -/

/-- The two phases of `execute_shell_task` compose to the whole function on
the successful-spawn path; the suspension point between them is the
`await ... process.communicate()` of line 78. -/
theorem execute_shell_task_phases (pid : Nat) (w : WaitOutcome) (tS tE : Nat)
    (task : ScheduledTask) (e : TaskExecution) (st : SysState) :
    execute_shell_task (SpawnResult.ok pid w) tS tE task e st =
      shellFinish w tE task (shellStart tS pid e st).1
        (shellStart tS pid e st).2 := rfl

/-- Cancellation of an id with no running-table entry returns `False` and
changes nothing (line 195 of `app/scheduler.py`). -/
theorem cancel_miss (c : CancelOutcome) (now : Nat) (st : SysState)
    (eid : Nat) (h : eid ∉ st.procs) :
    cancel_task_execution c now st eid = (false, st) := by
  unfold cancel_task_execution
  rw [if_neg h]

/-- Deleting an id from the running-process table removes it. -/
theorem not_mem_removeProc (procs : List Nat) (eid : Nat) :
    eid ∉ removeProc procs eid := by
  intro h
  rcases List.mem_filter.mp h with ⟨-, hkeep⟩
  simp at hkeep

/-- The record returned by `execute_task` carries the id freshly drawn from
the execution counter. -/
theorem execute_task_id (res : SpawnResult) (tC tS tE tA : Nat)
    (task : ScheduledTask) (st : SysState) :
    (execute_task res tC tS tE tA task st).1.id = st.db.nextExecutionId + 1 := by
  cases res with
  | ok pid w => cases w <;> rfl
  | err msg => rfl

/-- Running `execute_task` leaves the job registry untouched. -/
theorem execute_task_jobs (res : SpawnResult) (tC tS tE tA : Nat)
    (task : ScheduledTask) (st : SysState) :
    (execute_task res tC tS tE tA task st).2.jobs = st.jobs := by
  cases res with
  | ok pid w => cases w <;> rfl
  | err msg => rfl

/-- Running `execute_task` appends exactly one execution record. -/
theorem execute_task_len (res : SpawnResult) (tC tS tE tA : Nat)
    (task : ScheduledTask) (st : SysState) :
    (execute_task res tC tS tE tA task st).2.db.executions.length =
      st.db.executions.length + 1 := by
  cases res with
  | ok pid w =>
    cases w <;>
      simp [execute_task, execute_shell_task, shellStart, shellFinish,
        create_execution, update_execution, update_task]
  | err msg =>
    simp [execute_task, execute_shell_task, create_execution,
      update_execution, update_task]

/-- The record returned by `execute_task` is terminal: `completed` on a zero
exit code and `failed` on a nonzero exit code, timeout or spawn error. -/
theorem execute_task_terminal (res : SpawnResult) (tC tS tE tA : Nat)
    (task : ScheduledTask) (st : SysState) :
    (execute_task res tC tS tE tA task st).1.status = TaskStatus.completed ∨
      (execute_task res tC tS tE tA task st).1.status = TaskStatus.failed := by
  cases res with
  | ok pid w =>
    cases w with
    | exits rc out err =>
      by_cases hrc : rc = 0 <;>
        simp [execute_task, execute_shell_task, shellStart, shellFinish, hrc]
    | timesOut g =>
      simp [execute_task, execute_shell_task, shellStart, shellFinish]
  | err msg => simp [execute_task, execute_shell_task]

/-- After `execute_task`, the fresh record's id has no running-table entry
(provided the fresh id was not already registered, which a fresh counter value
never is). -/
theorem execute_task_procs (res : SpawnResult) (tC tS tE tA : Nat)
    (task : ScheduledTask) (st : SysState)
    (hfresh : st.db.nextExecutionId + 1 ∉ st.procs) :
    (execute_task res tC tS tE tA task st).1.id ∉
      (execute_task res tC tS tE tA task st).2.procs := by
  cases res with
  | ok pid w =>
    cases w <;>
      simpa [execute_task, execute_shell_task, shellStart, shellFinish,
        create_execution] using
        not_mem_removeProc (insertProc st.procs (st.db.nextExecutionId + 1))
          (st.db.nextExecutionId + 1)
  | err msg =>
    simpa [execute_task, execute_shell_task, create_execution] using hfresh

/-- On a task list updated by stamping `last_run_at`/`updated_at` onto one
task id, every task's `next_run_at` reads back unchanged. -/
theorem find_next_run_map (tasks : List ScheduledTask) (tid0 tid : Nat)
    (v : Option Nat) (now : Nat) :
    ((tasks.map (fun t =>
        if t.id = tid0 then { t with last_run_at := v, updated_at := now }
        else t)).find? (fun t => t.id = tid)).map (fun t => t.next_run_at) =
      (tasks.find? (fun t => t.id = tid)).map (fun t => t.next_run_at) := by
  rw [List.find?_map]
  have hpred : ((fun t : ScheduledTask => decide (t.id = tid)) ∘ (fun t =>
      if t.id = tid0 then { t with last_run_at := v, updated_at := now }
      else t)) = fun t : ScheduledTask => decide (t.id = tid) := by
    funext t
    by_cases ht : t.id = tid0 <;> simp [Function.comp, ht]
  rw [hpred]
  cases hf : tasks.find? (fun t => decide (t.id = tid)) with
  | none => rfl
  | some t0 => by_cases ht0 : t0.id = tid0 <;> simp [ht0]

/-- The task table after `execute_task`: the owning task gets `last_run_at`
(the completion time) and `updated_at`; nothing else changes. -/
theorem execute_task_tasks (res : SpawnResult) (tC tS tE tA : Nat)
    (task : ScheduledTask) (st : SysState) :
    (execute_task res tC tS tE tA task st).2.db.tasks =
      st.db.tasks.map (fun t =>
        if t.id = task.id
        then { t with
                last_run_at :=
                  some ((execute_task res tC tS tE tA task st).1.completed_at.getD tA)
                updated_at := tA }
        else t) := by
  cases res with
  | ok pid w => cases w <;> rfl
  | err msg => rfl

/-- Running `execute_task` updates only `last_run_at`/`updated_at` on the owning
task: every task's `next_run_at` reads back unchanged. -/
theorem execute_task_next_run (res : SpawnResult) (tC tS tE tA : Nat)
    (task : ScheduledTask) (st : SysState) (tid : Nat) :
    ((get_task (execute_task res tC tS tE tA task st).2.db tid).map
        (fun t => t.next_run_at)) =
      (get_task st.db tid).map (fun t => t.next_run_at) := by
  unfold get_task
  rw [execute_task_tasks]
  exact find_next_run_map st.db.tasks task.id tid _ tA

/-- Calling `execute_task_now` on a stored task runs the executor once (one new
record, terminal status), returns that record, and leaves the job registry
and every task's `next_run_at` unchanged. -/
theorem execute_task_now_spec (res : SpawnResult) (tC tS tE tA : Nat)
    (st : SysState) (tid : Nat) (task : ScheduledTask)
    (h : get_task st.db tid = some task) :
    (execute_task_now res tC tS tE tA st tid).1 =
        some (execute_task res tC tS tE tA task st).1 ∧
    (execute_task_now res tC tS tE tA st tid).2 =
        (execute_task res tC tS tE tA task st).2 := by
  unfold execute_task_now
  rw [h]
  exact ⟨rfl, rfl⟩

/-! ## Claim C9: five-field cron scheduling equals zero-prefixed six-field -/

/-- Trigger resolution is identical for a five-field cron expression and for
the same expression with an explicit leading `"0"` seconds field. -/
theorem resolveTrigger_prefix_zero (cronOk : Trigger → Bool)
    (task : ScheduledTask) (s : String)
    (hc : task.cron_expression = some s)
    (h5 : (cronFields s).length = 5) :
    resolveTrigger cronOk { task with cron_expression := some ("0 " ++ s) } =
      resolveTrigger cronOk task := by
  have hne : s.data ≠ [] := data_ne_nil_of_cronFields_length_five s h5
  have hemp : s.data.isEmpty = false := by
    cases hd : s.data with
    | nil => exact absurd hd hne
    | cons c t => rfl
  have hdata0 : ("0 " ++ s).data = '0' :: ' ' :: s.data := by
    rw [String.data_append]
    rfl
  have hemp0 : ("0 " ++ s).data.isEmpty = false := by
    rw [hdata0]
    rfl
  unfold resolveTrigger
  rw [hc]
  simp only [optStrTruthy, Option.getD_some, hemp, hemp0,
    Bool.not_false, if_true]
  rw [cronFields_prefix_zero, h5]
  simp [List.length_cons, h5]

/-- C9: for every five-field cron expression, `schedule_task` behaves exactly
as it does on the six-field expression obtained by prefixing an explicit "0"
seconds field — the same trigger is constructed, the same job is registered
and the same next-fire time is persisted. -/
theorem c9_five_field_equals_zero_prefixed (cronOk : Trigger → Bool)
    (nextRun : Trigger → Option Nat) (now : Nat) (st : SysState)
    (task : ScheduledTask) (s : String)
    (hc : task.cron_expression = some s)
    (h5 : (cronFields s).length = 5) :
    schedule_task cronOk nextRun now st
        { task with cron_expression := some ("0 " ++ s) } =
      schedule_task cronOk nextRun now st task := by
  unfold schedule_task
  rw [resolveTrigger_prefix_zero cronOk task s hc h5]

/-- Fixture for the C9 witness: a task scheduled by the five-field expression
`*/5`-style `"1 2 3 4 5"`. -/
def fiveFieldTask : ScheduledTask :=
  { id := 1, name := "five", command := "echo hi", enabled := true,
    cron_expression := some "1 2 3 4 5", interval_seconds := none,
    timeout_seconds := 300, max_retries := 0, created_at := 0, updated_at := 0,
    last_run_at := none, next_run_at := none }

/-- Fixture for the C9 witness: a running coordinator holding the task. -/
def fiveFieldState : SysState :=
  { is_running := true
    jobs := []
    procs := []
    db := { tasks := [fiveFieldTask], executions := [], nextExecutionId := 0 } }

/-- Witness for C9 at the concrete expression `"1 2 3 4 5"`. -/
theorem c9_witness :
    schedule_task (fun _ => true) (fun _ => some 7) 3 fiveFieldState
        { fiveFieldTask with cron_expression := some ("0 " ++ "1 2 3 4 5") } =
      schedule_task (fun _ => true) (fun _ => some 7) 3 fiveFieldState
        fiveFieldTask :=
  c9_five_field_equals_zero_prefixed (fun _ => true) (fun _ => some 7) 3
    fiveFieldState fiveFieldTask "1 2 3 4 5" rfl (by decide)

/-! ## Claim C1: invalid cron expressions -/

/-- A bad cron configuration (field count other than 5/6, or a field the
`CronTrigger` constructor rejects) makes `schedule_task` bail out after
removing any existing job handle: nothing is scheduled and nothing is written
to the database. -/
theorem resolveTrigger_bailOut (cronOk : Trigger → Bool)
    (task : ScheduledTask) (s : String)
    (hc : task.cron_expression = some s) (hne : s.data ≠ [])
    (hbad : ((cronFields s).length ≠ 5 ∧ (cronFields s).length ≠ 6) ∨
      ∀ t, cronOk t = false) :
    resolveTrigger cronOk task = TriggerResolution.bailOut := by
  have hemp : s.data.isEmpty = false := by
    cases hd : s.data with
    | nil => exact absurd hd hne
    | cons c t => rfl
  unfold resolveTrigger
  rw [hc]
  simp only [optStrTruthy, Option.getD_some, hemp, Bool.not_false, if_true]
  rcases hbad with ⟨h5, h6⟩ | hall
  · rw [if_neg h5, if_neg h6]
  · by_cases h5 : (cronFields s).length = 5
    · rw [if_pos h5]
      rw [if_pos (by rw [List.length_cons, h5])]
      rw [hall, if_neg (by simp)]
    · rw [if_neg h5]
      by_cases h6 : (cronFields s).length = 6
      · rw [if_pos h6, hall, if_neg (by simp)]
      · rw [if_neg h6]

/-- C1 (amended): on a nonempty cron expression whose field count is neither
5 nor 6, or whose fields the trigger constructor rejects, `schedule_task`
leaves the task unscheduled (no job handle) and raises nothing — but it
returns early without touching the database, so `next_run_at` keeps its old
value instead of being cleared to absent. -/
theorem c1_invalid_cron_unscheduled_db_untouched (cronOk : Trigger → Bool)
    (nextRun : Trigger → Option Nat) (now : Nat) (st : SysState)
    (task : ScheduledTask) (s : String)
    (hrun : st.is_running = true)
    (hc : task.cron_expression = some s) (hne : s.data ≠ [])
    (hbad : ((cronFields s).length ≠ 5 ∧ (cronFields s).length ≠ 6) ∨
      ∀ t, cronOk t = false) :
    (schedule_task cronOk nextRun now st task).db = st.db ∧
    (schedule_task cronOk nextRun now st task).procs = st.procs ∧
    ∀ trig, (task.id, trig) ∉ (schedule_task cronOk nextRun now st task).jobs := by
  unfold schedule_task
  rw [hrun, if_pos rfl, resolveTrigger_bailOut cronOk task s hc hne hbad]
  unfold applyResolution
  refine ⟨rfl, rfl, ?_⟩
  intro trig hmem
  rcases List.mem_filter.mp hmem with ⟨-, hkeep⟩
  simp at hkeep

/-- Fixture for C1: a task whose cron expression has seven fields and whose
`next_run_at` is currently set. -/
def sevenFieldTask : ScheduledTask :=
  { id := 1, name := "seven", command := "echo hi", enabled := true,
    cron_expression := some "1 2 3 4 5 6 7", interval_seconds := none,
    timeout_seconds := 300, max_retries := 0, created_at := 0, updated_at := 0,
    last_run_at := none, next_run_at := some 100 }

/-- Fixture for C1: a running coordinator holding the seven-field task. -/
def sevenFieldState : SysState :=
  { is_running := true
    jobs := []
    procs := []
    db := { tasks := [sevenFieldTask], executions := [], nextExecutionId := 0 } }

/-- C1 is refuted at a task whose cron expression `"1 2 3 4 5 6 7"` has seven
fields: `schedule_task` leaves the task unscheduled, but the stored
`next_run_at` remains `some 100` instead of being cleared to absent. -/
theorem c1_counterexample :
    sevenFieldTask.cron_expression = some "1 2 3 4 5 6 7" ∧
    (cronFields "1 2 3 4 5 6 7").length = 7 ∧
    sevenFieldTask.next_run_at = some 100 ∧
    (schedule_task (fun _ => true) (fun _ => some 999) 50
        sevenFieldState sevenFieldTask).jobs = [] ∧
    ((schedule_task (fun _ => true) (fun _ => some 999) 50
        sevenFieldState sevenFieldTask).db.tasks.map
      (fun t => t.next_run_at)) = [some 100] := by
  refine ⟨rfl, by decide, rfl, ?_, ?_⟩ <;> decide

/-- Witness for the amended C1 at the seven-field fixture. -/
theorem c1_witness :
    (schedule_task (fun _ => true) (fun _ => some 999) 50
        sevenFieldState sevenFieldTask).db = sevenFieldState.db ∧
    (schedule_task (fun _ => true) (fun _ => some 999) 50
        sevenFieldState sevenFieldTask).procs = sevenFieldState.procs ∧
    ∀ trig, (sevenFieldTask.id, trig) ∉
      (schedule_task (fun _ => true) (fun _ => some 999) 50
        sevenFieldState sevenFieldTask).jobs :=
  c1_invalid_cron_unscheduled_db_untouched (fun _ => true) (fun _ => some 999)
    50 sevenFieldState sevenFieldTask "1 2 3 4 5 6 7" rfl rfl (by decide)
    (Or.inl (by decide))

/-! ## Claims C4 and C5: executor outcomes -/

/-- C4: when the command does not finish within `timeout_seconds`, the
execution record ends with status `failed`, exit code `-1` and an error
message naming the timeout; the process receives `terminate` and, only if it
is still alive after the bounded 5-second grace wait, `kill`; and the
running-table entry is gone afterwards. -/
theorem c4_timeout_failed_minus_one (graceful : Bool) (pid tS tE : Nat)
    (task : ScheduledTask) (e : TaskExecution) (st : SysState) :
    (execute_shell_task (SpawnResult.ok pid (WaitOutcome.timesOut graceful))
        tS tE task e st).1.status = TaskStatus.failed ∧
    (execute_shell_task (SpawnResult.ok pid (WaitOutcome.timesOut graceful))
        tS tE task e st).1.exit_code = some (-1) ∧
    (execute_shell_task (SpawnResult.ok pid (WaitOutcome.timesOut graceful))
        tS tE task e st).1.error_message =
      some (timeoutMsg task.timeout_seconds) ∧
    timeoutMsg task.timeout_seconds =
      "任务执行超时 (" ++ toString task.timeout_seconds ++ "秒)" ∧
    (execute_shell_task (SpawnResult.ok pid (WaitOutcome.timesOut graceful))
        tS tE task e st).2.2 =
      (if graceful then [ProcAction.terminate]
       else [ProcAction.terminate, ProcAction.kill]) ∧
    e.id ∉ (execute_shell_task (SpawnResult.ok pid (WaitOutcome.timesOut graceful))
        tS tE task e st).2.1.procs := by
  refine ⟨rfl, rfl, rfl, rfl, rfl, ?_⟩
  exact not_mem_removeProc (insertProc st.procs e.id) e.id

/-- C5: when the process exits within the timeout, exit code, stdout and
stderr are captured on the record, the status is `completed` exactly when the
exit code is 0, a nonzero exit code gives `failed` with an error message
naming that exit code, and the persisted copy carries the same data. -/
theorem c5_normal_exit_capture (rc : Int) (out err : String) (pid tS tE : Nat)
    (task : ScheduledTask) (e : TaskExecution) (st : SysState) :
    (execute_shell_task (SpawnResult.ok pid (WaitOutcome.exits rc out err))
        tS tE task e st).1.exit_code = some rc ∧
    (execute_shell_task (SpawnResult.ok pid (WaitOutcome.exits rc out err))
        tS tE task e st).1.stdout = some out ∧
    (execute_shell_task (SpawnResult.ok pid (WaitOutcome.exits rc out err))
        tS tE task e st).1.stderr = some err ∧
    ((execute_shell_task (SpawnResult.ok pid (WaitOutcome.exits rc out err))
        tS tE task e st).1.status = TaskStatus.completed ↔ rc = 0) ∧
    (rc ≠ 0 →
      (execute_shell_task (SpawnResult.ok pid (WaitOutcome.exits rc out err))
          tS tE task e st).1.status = TaskStatus.failed ∧
      (execute_shell_task (SpawnResult.ok pid (WaitOutcome.exits rc out err))
          tS tE task e st).1.error_message = some (exitCodeMsg rc) ∧
      exitCodeMsg rc = "进程退出码: " ++ toString rc) ∧
    (∀ rec ∈ (execute_shell_task (SpawnResult.ok pid (WaitOutcome.exits rc out err))
        tS tE task e st).2.1.db.executions,
      rec.id = e.id →
        rec.exit_code = some rc ∧ rec.stdout = some out ∧
        rec.stderr = some err ∧
        rec.status =
          (execute_shell_task (SpawnResult.ok pid (WaitOutcome.exits rc out err))
            tS tE task e st).1.status) := by
  refine ⟨rfl, rfl, rfl, ?_, ?_, ?_⟩
  · by_cases hrc : rc = 0 <;>
      simp [execute_shell_task, shellStart, shellFinish, hrc]
  · intro hrc
    refine ⟨?_, ?_, rfl⟩ <;>
      simp [execute_shell_task, shellStart, shellFinish, hrc]
  · intro rec hmem hid
    have : rec ∈ (update_execution
        (update_execution st.db e.id (fun r =>
          { r with status := TaskStatus.running, started_at := some tS }))
        e.id (fun r =>
          { r with
              status := if rc = 0 then TaskStatus.completed else TaskStatus.failed
              completed_at := some tE
              duration_seconds := some (tE - tS)
              exit_code := some rc
              stdout := some out
              stderr := some err
              error_message :=
                if rc = 0 then e.error_message else some (exitCodeMsg rc)
              pid := some pid })).executions := hmem
    rcases List.mem_map.mp this with ⟨r1, hr1mem, hr1⟩
    by_cases hr1id : r1.id = e.id
    · rw [if_pos hr1id] at hr1
      subst hr1
      by_cases hrc : rc = 0 <;>
        simp [execute_shell_task, shellStart, shellFinish, hrc]
    · rw [if_neg hr1id] at hr1
      subst hr1
      exact absurd hid hr1id

/-- Fixture for the C5 witness: a plain shell task. -/
def demoExecTask : ScheduledTask :=
  { id := 1, name := "demo", command := "false", enabled := true,
    cron_expression := none, interval_seconds := none,
    timeout_seconds := 300, max_retries := 0, created_at := 0, updated_at := 0,
    last_run_at := none, next_run_at := none }

/-- Fixture for the C5 witness: its pending execution record. -/
def demoExecPending : TaskExecution :=
  { id := 1, task_id := 1, task_name := "demo", status := TaskStatus.pending,
    started_at := none, completed_at := none, duration_seconds := none,
    exit_code := none, stdout := none, stderr := none, error_message := none,
    pid := none, command := "false", created_at := 5 }

/-- Fixture for the C5 witness: the runtime state holding both. -/
def demoExecState : SysState :=
  { is_running := true
    jobs := []
    procs := []
    db := { tasks := [demoExecTask], executions := [demoExecPending],
            nextExecutionId := 1 } }

/-- Witness for C5 at exit code 2: status `failed` with the message naming
the exit code. -/
theorem c5_witness :
    (execute_shell_task (SpawnResult.ok 9 (WaitOutcome.exits 2 "o" "e")) 10 20
        demoExecTask demoExecPending demoExecState).1.status =
      TaskStatus.failed ∧
    (execute_shell_task (SpawnResult.ok 9 (WaitOutcome.exits 2 "o" "e")) 10 20
        demoExecTask demoExecPending demoExecState).1.error_message =
      some (exitCodeMsg 2) := by
  have h := c5_normal_exit_capture 2 "o" "e" 9 10 20 demoExecTask
    demoExecPending demoExecState
  exact ⟨(h.2.2.2.2.1 (by decide)).1, (h.2.2.2.2.1 (by decide)).2.1⟩

/-- Witness for C4 with a process that survives the grace wait: `failed`,
exit code `-1`, the timeout message, terminate followed by kill, and the
table entry removed. -/
theorem c4_witness :
    (execute_shell_task (SpawnResult.ok 9 (WaitOutcome.timesOut false)) 10 20
        demoExecTask demoExecPending demoExecState).1.status =
      TaskStatus.failed ∧
    (execute_shell_task (SpawnResult.ok 9 (WaitOutcome.timesOut false)) 10 20
        demoExecTask demoExecPending demoExecState).1.exit_code = some (-1) ∧
    (execute_shell_task (SpawnResult.ok 9 (WaitOutcome.timesOut false)) 10 20
        demoExecTask demoExecPending demoExecState).1.error_message =
      some (timeoutMsg 300) ∧
    demoExecPending.id ∉
      (execute_shell_task (SpawnResult.ok 9 (WaitOutcome.timesOut false)) 10 20
        demoExecTask demoExecPending demoExecState).2.1.procs := by
  have h := c4_timeout_failed_minus_one false 9 10 20 demoExecTask
    demoExecPending demoExecState
  exact ⟨h.1, h.2.1, h.2.2.1, h.2.2.2.2.2⟩

/-! ## Claim C2: terminal records and the cancel/persist interleaving -/

/-- Fixture for C2: a long-running task. -/
def raceTask : ScheduledTask :=
  { id := 1, name := "race", command := "sleep 100", enabled := true,
    cron_expression := none, interval_seconds := none,
    timeout_seconds := 300, max_retries := 0, created_at := 0, updated_at := 0,
    last_run_at := none, next_run_at := none }

/-- Fixture for C2: its pending execution record, already persisted. -/
def racePending : TaskExecution :=
  { id := 1, task_id := 1, task_name := "race", status := TaskStatus.pending,
    started_at := none, completed_at := none, duration_seconds := none,
    exit_code := none, stdout := none, stderr := none, error_message := none,
    pid := none, command := "sleep 100", created_at := 5 }

/-- Fixture for C2: the runtime state before the execution starts. -/
def raceState : SysState :=
  { is_running := true
    jobs := []
    procs := []
    db := { tasks := [raceTask], executions := [racePending],
            nextExecutionId := 1 } }

/-- C2 interleaving, step 1: the executor marks the record running, spawns
the process and registers it, then suspends awaiting the process. -/
def raceStarted : TaskExecution × SysState := shellStart 10 555 racePending raceState

/-- C2 interleaving, step 2: while the executor is suspended,
`cancel_task_execution` runs, kills the process tree, marks the record
`cancelled` and removes the table entry. -/
def raceCancelled : Bool × SysState :=
  cancel_task_execution CancelOutcome.ok 20 raceStarted.2 1

/-- C2 interleaving, step 3: the killed process's `communicate()` returns
(exit code `-15`, SIGTERM) and the executor resumes with its normal-exit path
and final persist. -/
def raceFinished : TaskExecution × SysState × List ProcAction :=
  shellFinish (WaitOutcome.exits (-15) "" "") 30 raceTask raceStarted.1
    raceCancelled.2

/-- C2 is refuted by the cancel/resume interleaving: the cancellation
succeeds and marks the record terminal (`cancelled`), yet the executor's
final persist step afterwards overwrites that same record to `failed` with
the SIGTERM exit code — a terminal record is mutated again. -/
theorem c2_counterexample :
    raceCancelled.1 = true ∧
    (get_execution raceCancelled.2.db 1).map (fun r => r.status) =
      some TaskStatus.cancelled ∧
    (get_execution raceFinished.2.1.db 1).map (fun r => r.status) =
      some TaskStatus.failed ∧
    (get_execution raceFinished.2.1.db 1).map (fun r => r.error_message) =
      some (some (exitCodeMsg (-15))) := by
  refine ⟨by decide, by decide, by decide, by decide⟩

/-- C2 (amended): an execution record is immutable once the executor's final
persist has completed — the running-table entry is gone by then, so any later
cancellation returns `false` and changes nothing.  (While the executor is
still suspended awaiting the process, a record marked `cancelled` can still
be overwritten by the final persist, as the counterexample shows.) -/
theorem c2_terminal_after_final_persist (res : SpawnResult) (tC tS tE tA : Nat)
    (task : ScheduledTask) (st : SysState) (c : CancelOutcome) (now : Nat)
    (hfresh : st.db.nextExecutionId + 1 ∉ st.procs) :
    (execute_task res tC tS tE tA task st).1.id ∉
      (execute_task res tC tS tE tA task st).2.procs ∧
    cancel_task_execution c now (execute_task res tC tS tE tA task st).2
        (execute_task res tC tS tE tA task st).1.id =
      (false, (execute_task res tC tS tE tA task st).2) := by
  have h1 := execute_task_procs res tC tS tE tA task st hfresh
  exact ⟨h1, cancel_miss c now _ _ h1⟩

/-- Witness for the amended C2: after a completed run, cancelling the
finished execution changes nothing. -/
theorem c2_witness :
    (execute_task (SpawnResult.ok 9 (WaitOutcome.exits 0 "out" "")) 1 2 3 4
        raceTask raceState).1.id ∉
      (execute_task (SpawnResult.ok 9 (WaitOutcome.exits 0 "out" "")) 1 2 3 4
        raceTask raceState).2.procs ∧
    cancel_task_execution CancelOutcome.ok 99
        (execute_task (SpawnResult.ok 9 (WaitOutcome.exits 0 "out" "")) 1 2 3 4
          raceTask raceState).2
        (execute_task (SpawnResult.ok 9 (WaitOutcome.exits 0 "out" "")) 1 2 3 4
          raceTask raceState).1.id =
      (false, (execute_task (SpawnResult.ok 9 (WaitOutcome.exits 0 "out" "")) 1 2 3 4
        raceTask raceState).2) :=
  c2_terminal_after_final_persist (SpawnResult.ok 9 (WaitOutcome.exits 0 "out" ""))
    1 2 3 4 raceTask raceState CancelOutcome.ok 99 (by decide)

/-! ## Claim C3: cancellation cleanup under unexpected errors -/

/-- Fixture for C3: a running execution record with id 7. -/
def danglingRecord : TaskExecution :=
  { id := 7, task_id := 2, task_name := "d",
    status := TaskStatus.running, started_at := some 9,
    completed_at := none, duration_seconds := none,
    exit_code := none, stdout := none, stderr := none,
    error_message := none, pid := some 321, command := "sleep 50",
    created_at := 8 }

/-- Fixture for C3: an execution id 7 registered in the running-process
table, with its running record persisted. -/
def danglingState : SysState :=
  { is_running := true
    jobs := []
    procs := [7]
    db := { tasks := [], executions := [danglingRecord], nextExecutionId := 7 } }

/-- C3 is refuted when process inspection raises an unexpected error: the
outer handler returns `false` and the running-process table still contains
the id — the entry is left dangling. -/
theorem c3_counterexample :
    cancel_task_execution (CancelOutcome.unexpectedError "boom") 20
        danglingState 7 = (false, danglingState) ∧
    (cancel_task_execution (CancelOutcome.unexpectedError "boom") 20
        danglingState 7).2.procs = [7] := by
  refine ⟨by decide, by decide⟩

/-- C3 (amended): for a registered id, the handled teardown paths (clean
termination, process already gone, grace-timeout then force-kill) do remove
the running-table entry; but an unexpected error during inspection or
termination makes `cancel` return `false` with the entry still in place. -/
theorem c3_cleanup_only_on_handled_paths (st : SysState) (eid now : Nat)
    (c : CancelOutcome) (hmem : eid ∈ st.procs) :
    (c.handled = true → eid ∉ (cancel_task_execution c now st eid).2.procs) ∧
    (∀ msg, cancel_task_execution (CancelOutcome.unexpectedError msg) now st eid =
      (false, st)) := by
  constructor
  · intro hh
    unfold cancel_task_execution
    rw [if_pos hmem, if_pos hh]
    exact not_mem_removeProc st.procs eid
  · intro msg
    unfold cancel_task_execution
    rw [if_pos hmem, if_neg (by simp [CancelOutcome.handled])]

/-- Witness for the amended C3 at the registered id 7. -/
theorem c3_witness :
    (7 ∉ (cancel_task_execution CancelOutcome.ok 20 danglingState 7).2.procs) ∧
    cancel_task_execution (CancelOutcome.unexpectedError "oops") 20
        danglingState 7 = (false, danglingState) := by
  have h := c3_cleanup_only_on_handled_paths danglingState 7 20
    CancelOutcome.ok (by decide)
  exact ⟨h.1 rfl, h.2 "oops"⟩

/-! ## Claim C6: the cancel contract -/

/-- C6: `cancel` returns `false` when no process is registered for the id; a
successful cancellation of a registered process returns `true`, marks every
matching persisted record `cancelled` with the user-cancellation message and
a completion time, and removes the table entry — so a second cancel of the
same id returns `false` and changes nothing. -/
theorem c6_cancel_contract (st : SysState) (eid now now2 : Nat)
    (c c2 : CancelOutcome) :
    (eid ∉ st.procs → cancel_task_execution c now st eid = (false, st)) ∧
    (eid ∈ st.procs →
      (cancel_task_execution CancelOutcome.ok now st eid).1 = true ∧
      (∀ rec ∈ (cancel_task_execution CancelOutcome.ok now st eid).2.db.executions,
        rec.id = eid →
          rec.status = TaskStatus.cancelled ∧
          rec.error_message = some cancelMsg ∧
          rec.completed_at = some now) ∧
      eid ∉ (cancel_task_execution CancelOutcome.ok now st eid).2.procs ∧
      cancel_task_execution c2 now2
          (cancel_task_execution CancelOutcome.ok now st eid).2 eid =
        (false, (cancel_task_execution CancelOutcome.ok now st eid).2)) := by
  constructor
  · intro hmiss
    exact cancel_miss c now st eid hmiss
  · intro hmem
    have hgone : eid ∉ (cancel_task_execution CancelOutcome.ok now st eid).2.procs := by
      unfold cancel_task_execution
      rw [if_pos hmem, if_pos (show CancelOutcome.ok.handled = true from rfl)]
      exact not_mem_removeProc st.procs eid
    refine ⟨?_, ?_, hgone, cancel_miss c2 now2 _ eid hgone⟩
    · unfold cancel_task_execution
      rw [if_pos hmem, if_pos (show CancelOutcome.ok.handled = true from rfl)]
    · intro rec hrec hid
      revert hrec
      unfold cancel_task_execution
      rw [if_pos hmem, if_pos (show CancelOutcome.ok.handled = true from rfl)]
      intro hrec
      rcases List.mem_map.mp hrec with ⟨r1, hr1mem, hr1⟩
      by_cases hr1id : r1.id = eid
      · rw [if_pos hr1id] at hr1
        subst hr1
        exact ⟨rfl, rfl, rfl⟩
      · rw [if_neg hr1id] at hr1
        subst hr1
        exact absurd hid hr1id

/-- Witness for C6 at the registered id 7: first cancel succeeds and marks
the record, second cancel returns `false`. -/
theorem c6_witness :
    (cancel_task_execution CancelOutcome.ok 20 danglingState 7).1 = true ∧
    (∀ rec ∈ (cancel_task_execution CancelOutcome.ok 20 danglingState 7).2.db.executions,
      rec.id = 7 →
        rec.status = TaskStatus.cancelled ∧
        rec.error_message = some cancelMsg ∧
        rec.completed_at = some 20) ∧
    cancel_task_execution CancelOutcome.ok 99
        (cancel_task_execution CancelOutcome.ok 20 danglingState 7).2 7 =
      (false, (cancel_task_execution CancelOutcome.ok 20 danglingState 7).2) := by
  have h := (c6_cancel_contract danglingState 7 20 99 CancelOutcome.ok
    CancelOutcome.ok).2 (by decide)
  exact ⟨h.1, h.2.1, h.2.2.2⟩

/-! ## Claim C7: manual execution bypasses scheduling -/

/-- C7: for every stored task — the `enabled` flag is never consulted —
`execute_task_now` invokes the executor exactly once (one new execution
record, run to a terminal status) and leaves both the job registry and the
stored `next_run_at` unchanged. -/
theorem c7_execute_now_bypasses_schedule (res : SpawnResult)
    (tC tS tE tA : Nat) (st : SysState) (tid : Nat) (task : ScheduledTask)
    (h : get_task st.db tid = some task) :
    (∃ e, (execute_task_now res tC tS tE tA st tid).1 = some e ∧
      (e.status = TaskStatus.completed ∨ e.status = TaskStatus.failed)) ∧
    (execute_task_now res tC tS tE tA st tid).2.jobs = st.jobs ∧
    (execute_task_now res tC tS tE tA st tid).2.db.executions.length =
      st.db.executions.length + 1 ∧
    ((get_task (execute_task_now res tC tS tE tA st tid).2.db tid).map
      (fun t => t.next_run_at)) = some task.next_run_at := by
  obtain ⟨h1, h2⟩ := execute_task_now_spec res tC tS tE tA st tid task h
  refine ⟨⟨(execute_task res tC tS tE tA task st).1, h1,
    execute_task_terminal res tC tS tE tA task st⟩, ?_, ?_, ?_⟩
  · rw [h2]
    exact execute_task_jobs res tC tS tE tA task st
  · rw [h2]
    exact execute_task_len res tC tS tE tA task st
  · rw [h2, execute_task_next_run res tC tS tE tA task st tid, h]
    rfl

/-- Fixture for C7: a disabled task holding a schedule and a next-fire
time. -/
def disabledTask : ScheduledTask :=
  { id := 3, name := "off", command := "echo off", enabled := false,
    cron_expression := some "1 2 3 4 5", interval_seconds := none,
    timeout_seconds := 300, max_retries := 0, created_at := 0, updated_at := 0,
    last_run_at := none, next_run_at := some 44 }

/-- Fixture for C7: a running coordinator with the disabled task scheduled. -/
def disabledTaskState : SysState :=
  { is_running := true
    jobs := [(3, Trigger.interval 60)]
    procs := []
    db := { tasks := [disabledTask], executions := [], nextExecutionId := 0 } }

/-- Witness for C7 on the disabled task: it runs anyway, and neither the job
handle nor `next_run_at` changes. -/
theorem c7_witness :
    (∃ e, (execute_task_now (SpawnResult.ok 9 (WaitOutcome.exits 0 "o" "")) 1 2 3 4
        disabledTaskState 3).1 = some e ∧
      (e.status = TaskStatus.completed ∨ e.status = TaskStatus.failed)) ∧
    (execute_task_now (SpawnResult.ok 9 (WaitOutcome.exits 0 "o" "")) 1 2 3 4
        disabledTaskState 3).2.jobs = disabledTaskState.jobs ∧
    (execute_task_now (SpawnResult.ok 9 (WaitOutcome.exits 0 "o" "")) 1 2 3 4
        disabledTaskState 3).2.db.executions.length =
      disabledTaskState.db.executions.length + 1 ∧
    ((get_task (execute_task_now (SpawnResult.ok 9 (WaitOutcome.exits 0 "o" "")) 1 2 3 4
        disabledTaskState 3).2.db 3).map (fun t => t.next_run_at)) =
      some disabledTask.next_run_at :=
  c7_execute_now_bypasses_schedule (SpawnResult.ok 9 (WaitOutcome.exits 0 "o" ""))
    1 2 3 4 disabledTaskState 3 disabledTask (by decide)

/-! ## Claim C8: behaviour while the coordinator is not running -/

/-- Fixture for C8: a stopped coordinator holding a stored task. -/
def stoppedState : SysState :=
  { is_running := false
    jobs := []
    procs := []
    db := { tasks := [raceTask], executions := [], nextExecutionId := 0 } }

/-- C8 is refuted at `execute_task_now` on a stopped coordinator: the running
flag is `false`, yet the call executes the task — it returns an execution
record and persists a new one — instead of being a no-op. -/
theorem c8_counterexample :
    stoppedState.is_running = false ∧
    (execute_task_now (SpawnResult.ok 9 (WaitOutcome.exits 0 "hi" "")) 1 2 3 4
        stoppedState 1).1 ≠ none ∧
    stoppedState.db.executions.length = 0 ∧
    (execute_task_now (SpawnResult.ok 9 (WaitOutcome.exits 0 "hi" "")) 1 2 3 4
        stoppedState 1).2.db.executions.length = 1 := by
  refine ⟨rfl, by decide, rfl, by decide⟩

/-- C8 (amended): while the coordinator is not running, `schedule_task`,
`reload_tasks` and `stop` are no-ops leaving the state unchanged, but
`execute_task_now` never consults the running flag — on a stored task it
still runs the executor and persists a new execution record. -/
theorem c8_stopped_noops_except_execute_now (cronOk : Trigger → Bool)
    (nextRun : Trigger → Option Nat) (now : Nat) (st : SysState)
    (task : ScheduledTask) (res : SpawnResult) (tC tS tE tA tid : Nat)
    (task' : ScheduledTask) (hnr : st.is_running = false) :
    schedule_task cronOk nextRun now st task = st ∧
    reload_tasks cronOk nextRun now st = st ∧
    stop st = st ∧
    (get_task st.db tid = some task' →
      (execute_task_now res tC tS tE tA st tid).1 =
          some (execute_task res tC tS tE tA task' st).1 ∧
      (execute_task_now res tC tS tE tA st tid).2.db.executions.length =
        st.db.executions.length + 1) := by
  refine ⟨?_, ?_, ?_, ?_⟩
  · simp [schedule_task, hnr]
  · simp [reload_tasks, hnr]
  · simp [stop, hnr]
  · intro h
    obtain ⟨h1, h2⟩ := execute_task_now_spec res tC tS tE tA st tid task' h
    refine ⟨h1, ?_⟩
    rw [h2]
    exact execute_task_len res tC tS tE tA task' st

/-- Witness for the amended C8 on the stopped coordinator. -/
theorem c8_witness :
    schedule_task (fun _ => true) (fun _ => some 7) 3 stoppedState raceTask =
      stoppedState ∧
    reload_tasks (fun _ => true) (fun _ => some 7) 3 stoppedState =
      stoppedState ∧
    stop stoppedState = stoppedState ∧
    (get_task stoppedState.db 1 = some raceTask →
      (execute_task_now (SpawnResult.ok 9 (WaitOutcome.exits 0 "hi" "")) 1 2 3 4
          stoppedState 1).1 =
        some (execute_task (SpawnResult.ok 9 (WaitOutcome.exits 0 "hi" "")) 1 2 3 4
          raceTask stoppedState).1 ∧
      (execute_task_now (SpawnResult.ok 9 (WaitOutcome.exits 0 "hi" "")) 1 2 3 4
          stoppedState 1).2.db.executions.length =
        stoppedState.db.executions.length + 1) :=
  c8_stopped_noops_except_execute_now (fun _ => true) (fun _ => some 7) 3
    stoppedState raceTask (SpawnResult.ok 9 (WaitOutcome.exits 0 "hi" ""))
    1 2 3 4 1 raceTask rfl

/-! ## Claim C10: deleting a task erases its execution history -/

/-- C10: `delete_task` removes the task and every execution record with that
`task_id`; records and tasks of other ids are exactly those that survive, the
execution counter is untouched, and the returned flag says whether a task row
existed. -/
theorem c10_delete_task_frame (db : DbState) (tid : Nat) :
    (∀ e ∈ (delete_task db tid).2.executions, e.task_id ≠ tid) ∧
    (∀ t ∈ (delete_task db tid).2.tasks, t.id ≠ tid) ∧
    (∀ e, e ∈ db.executions →
      (e ∈ (delete_task db tid).2.executions ↔ e.task_id ≠ tid)) ∧
    (∀ t, t ∈ db.tasks → (t ∈ (delete_task db tid).2.tasks ↔ t.id ≠ tid)) ∧
    (∀ e, e ∈ (delete_task db tid).2.executions → e ∈ db.executions) ∧
    (∀ t, t ∈ (delete_task db tid).2.tasks → t ∈ db.tasks) ∧
    (delete_task db tid).2.nextExecutionId = db.nextExecutionId ∧
    ((delete_task db tid).1 = true ↔ ∃ t ∈ db.tasks, t.id = tid) := by
  unfold delete_task
  refine ⟨?_, ?_, ?_, ?_, ?_, ?_, rfl, ?_⟩
  · intro e he
    rcases List.mem_filter.mp he with ⟨-, hkeep⟩
    simpa using hkeep
  · intro t ht
    rcases List.mem_filter.mp ht with ⟨-, hkeep⟩
    simpa using hkeep
  · intro e he
    constructor
    · intro hin
      rcases List.mem_filter.mp hin with ⟨-, hkeep⟩
      simpa using hkeep
    · intro hne
      exact List.mem_filter.mpr ⟨he, by simpa using hne⟩
  · intro t ht
    constructor
    · intro hin
      rcases List.mem_filter.mp hin with ⟨-, hkeep⟩
      simpa using hkeep
    · intro hne
      exact List.mem_filter.mpr ⟨ht, by simpa using hne⟩
  · intro e he
    exact (List.mem_filter.mp he).1
  · intro t ht
    exact (List.mem_filter.mp ht).1
  · simp [List.any_eq_true]

/-- Fixture for the C10 witness: a database with two tasks and three
execution records across them. -/
def historyDb : DbState :=
  { tasks := [raceTask, disabledTask]
    executions := [racePending, danglingRecord,
      { danglingRecord with id := 8, task_id := 1 }]
    nextExecutionId := 8 }

/-- Witness for C10: deleting task 2 erases record 7 but keeps task 1's
records and the other task. -/
theorem c10_witness :
    (∀ e ∈ (delete_task historyDb 2).2.executions, e.task_id ≠ 2) ∧
    (racePending ∈ (delete_task historyDb 2).2.executions) ∧
    (raceTask ∈ (delete_task historyDb 2).2.tasks) ∧
    ¬ danglingRecord ∈ (delete_task historyDb 2).2.executions := by
  have h := c10_delete_task_frame historyDb 2
  refine ⟨h.1, ?_, ?_, ?_⟩
  · exact (h.2.2.1 racePending (by decide)).mpr (by decide)
  · exact (h.2.2.2.1 raceTask (by decide)).mpr (by decide)
  · intro hmem
    exact absurd (by decide : danglingRecord.task_id = 2) (h.1 danglingRecord hmem)

end ServerManager
